import Mathlib

/-!
Verification of the pints probabilistic-inference toolkit: the
`UniformLogPrior` distribution (src/pints/_log_priors.py) and the
ABC-SMC ask/tell sampler contract described in the design spec.

Python floats are embedded as exact rationals; the single irrational
constant the code stores, a value of the form `-log a`, is kept symbolic
through the constructor `PyFloat.negLogOf a`.
-/

/-- Embedded value of a Python float as produced by the log-prior code:
either an exact rational literal, the symbolic value `-log a` for a
rational `a` (the normalising constant stored by `UniformLogPrior.__init__`),
or negative infinity. -/
inductive PyFloat where
  | lit (q : ℚ)
  | negLogOf (a : ℚ)
  | negInf
deriving DecidableEq

/-- A float is finite unless it is negative infinity; the symbolic value
`-log a` is a finite real number exactly when `a` is strictly positive. -/
def PyFloat.isFinite : PyFloat → Bool
  | .lit _ => true
  | .negLogOf a => decide (0 < a)
  | .negInf => false

/-- Rectangular boundaries: per-coordinate lower and upper bounds
(pints.RectangularBoundaries, constructed by `UniformLogPrior.__init__`
at src/pints/_log_priors.py:997). -/
structure RectangularBoundaries where
  lower : List ℚ
  upper : List ℚ
deriving DecidableEq

/-- Per-coordinate widths `upper - lower`, the value of
`RectangularBoundaries.range()` used at src/pints/_log_priors.py:1007. -/
def RectangularBoundaries.range (b : RectangularBoundaries) : List ℚ :=
  List.zipWith (fun u l => u - l) b.upper b.lower

/-- The value of `np.product(self._boundaries.range())` at
src/pints/_log_priors.py:1007. -/
def rangeProduct (b : RectangularBoundaries) : ℚ :=
  b.range.prod

/-- Modelled from the spec: `RectangularBoundaries.check` is not under src/;
per the `UniformLogPrior` docstring (src/pints/_log_priors.py:961-962) a
point has nonzero prior exactly when `lower <= x < upper` in every
coordinate, so `check` accepts `x` iff `x` has the right dimension and
every coordinate satisfies `lower[i] <= x[i] < upper[i]`. -/
def RectangularBoundaries.check (b : RectangularBoundaries) (x : List ℚ) : Bool :=
  decide (x.length = b.lower.length) &&
    (x.zip (b.lower.zip b.upper)).all fun q => decide (q.2.1 ≤ q.1 ∧ q.1 < q.2.2)

/-- The boundaries object held by a `UniformLogPrior`: either rectangular
boundaries, or an arbitrary `pints.Boundaries` object abstracted by its
membership test (the `isinstance` branch at src/pints/_log_priors.py:1006). -/
inductive Boundaries where
  | rectangular (b : RectangularBoundaries)
  | custom (chk : List ℚ → Bool)

/-- Dispatch of `self._boundaries.check(x)` over the two kinds of
boundaries object. -/
def Boundaries.check : Boundaries → List ℚ → Bool
  | .rectangular b, x => b.check x
  | .custom chk, x => chk x

/-- The cached maximum output `self._value` computed by
`UniformLogPrior.__init__` (src/pints/_log_priors.py:1003-1009):
`-np.log(np.product(range))` for rectangular boundaries, otherwise `1`. -/
def UniformLogPrior.value : Boundaries → PyFloat
  | .rectangular b => .negLogOf (rangeProduct b)
  | .custom _ => .lit 1

/-- `UniformLogPrior.__call__` (src/pints/_log_priors.py:1011-1012):
`self._value if self._boundaries.check(x) else -np.inf`. -/
def UniformLogPrior.call (bnd : Boundaries) (x : List ℚ) : PyFloat :=
  if bnd.check x then UniformLogPrior.value bnd else .negInf

/-- Per-coordinate body of `UniformLogPrior.cdf`
(src/pints/_log_priors.py:1019-1028): `(-lower + x)/(-lower + upper)` on
the open interval, `1` at or above the upper bound, else `0`. -/
def UniformLogPrior.cdf1 (lower upper x : ℚ) : ℚ :=
  if lower < x ∧ x < upper then (-lower + x) / (-lower + upper)
  else if upper ≤ x then 1
  else 0

/-- Per-coordinate body of `UniformLogPrior.icdf`
(src/pints/_log_priors.py:1039-1047): `lower*(1-p) + upper*p` on the open
unit interval, the lower bound for `p <= 0`, else the upper bound. -/
def UniformLogPrior.icdf1 (lower upper p : ℚ) : ℚ :=
  if 0 < p ∧ p < 1 then lower * (1 - p) + upper * p
  else if p ≤ 0 then lower
  else upper

/-- `UniformLogPrior.cdf` maps the per-coordinate body over the input
coordinates paired with the per-coordinate bounds
(src/pints/_log_priors.py:1014-1032, list case). -/
def UniformLogPrior.cdf (b : RectangularBoundaries) (xs : List ℚ) : List ℚ :=
  (xs.zip (b.lower.zip b.upper)).map fun q => UniformLogPrior.cdf1 q.2.1 q.2.2 q.1

/-- `UniformLogPrior.icdf` maps the per-coordinate body over the input
probabilities paired with the per-coordinate bounds
(src/pints/_log_priors.py:1034-1051, list case). -/
def UniformLogPrior.icdf (b : RectangularBoundaries) (ps : List ℚ) : List ℚ :=
  (ps.zip (b.lower.zip b.upper)).map fun q => UniformLogPrior.icdf1 q.2.1 q.2.2 q.1

/-!
The ABC-SMC sampler itself is not among the source files; it is modelled
below from the design spec (sections 3, 4.1, 6 and 7): an ask/tell state
machine over a threshold schedule, with a single-outstanding-request
protocol, configuration validation and a null result for batches in which
no proposal beats the current threshold.
-/

/-- Modelled from the spec (section 7): the error taxonomy of the sampler.
`protocolError` corresponds to a misuse of the ask/tell protocol,
`valueError` to a configuration error of the ValueError class, and
`exhaustedError` to an ask after the schedule is consumed. -/
inductive ABCError where
  | protocolError (msg : String)
  | valueError (msg : String)
  | exhaustedError
deriving DecidableEq

/-- Modelled from the spec (section 3, Sampler state): the mutable state of
the ABC-SMC controller over parameter vectors of type `θ`: the threshold
schedule, the population size per generation, the current generation index,
the growing current population of accepted particles, and the pending-ask
buffer which exists only between an `ask` and its matching `tell`.
Importance weights (section 4.2) are not tracked: no claim below depends
on them. -/
structure ABCState (θ : Type) where
  threshold_schedule : List ℚ
  intermediate_size : Nat
  gen : Nat
  population : List θ
  pending : Option (List θ)
deriving DecidableEq

/-- Modelled from the spec (section 6): a prior exposing sampling from a
deterministic pseudo-random source and a support test. -/
structure Prior (θ : Type) where
  sample : Nat → θ
  inSupport : θ → Bool

/-- Modelled from the spec (section 6): a candidate transition-kernel
argument, abstracted by which of the two required capabilities, sample and
density, it actually exposes. A valid kernel exposes both. -/
structure TransitionKernelArg (θ : Type) where
  sampleCap : Option (θ → Nat → θ)
  densityCap : Option (θ → θ → ℚ)

/-- A transition-kernel argument is acceptable iff it exposes both the
sample and the density capability. -/
def TransitionKernelArg.hasCapabilities {θ : Type} (k : TransitionKernelArg θ) : Bool :=
  k.sampleCap.isSome && k.densityCap.isSome

/-- Modelled from the spec: a bare numeric array exposes neither a sample
nor a density capability. -/
def bareNumericArray (θ : Type) : TransitionKernelArg θ :=
  ⟨none, none⟩

/-- Modelled from the spec (section 6): `ABCSMC(prior, transition_kernel)`.
Supplying a transition-kernel argument lacking the sample and density
capabilities fails with a ValueError-class error; otherwise a fresh sampler
state with no pending-ask buffer is constructed. -/
def ABCSMC.construct {θ : Type} (_prior : Prior θ)
    (kernel : Option (TransitionKernelArg θ)) : Except ABCError (ABCState θ) :=
  match kernel with
  | none => .ok ⟨[], 0, 0, [], none⟩
  | some k =>
      if k.hasCapabilities then .ok ⟨[], 0, 0, [], none⟩
      else .error (.valueError "Transition kernel must expose sample and density capabilities.")

/-- Modelled from the spec (section 6): `set_threshold_schedule(thresholds)`
fails with a ValueError-class error if any entry is non-positive, and
otherwise installs the schedule. -/
def ABCSMC.set_threshold_schedule {θ : Type} (st : ABCState θ) (ts : List ℚ) :
    Except ABCError (ABCState θ) :=
  if ts.any fun t => decide (t ≤ 0) then
    .error (.valueError "Thresholds must all be positive.")
  else
    .ok { st with threshold_schedule := ts }

/-- The threshold of the current generation: entry `gen` of the schedule
(spec section 3, Threshold schedule). -/
def currentThreshold {θ : Type} (st : ABCState θ) : ℚ :=
  st.threshold_schedule.getD st.gen 0

/-- Modelled from the spec (section 4.1): `ask(n)`. Fails with a
ProtocolError while a previous ask is outstanding, and with an
ExhaustedError once the generation index passes the end of the schedule;
otherwise issues `n` proposals and stores them as the pending-ask buffer.
The draw procedure itself (prior sampling at generation 0, weighted
perturbation with support re-draws afterwards) is abstracted by the oracle
`propose` giving the i-th resolved proposal of the batch, since no claim
below depends on the numeric values of proposals. -/
def ABCSMC.ask {θ : Type} (st : ABCState θ) (propose : Nat → θ) (n : Nat) :
    Except ABCError (List θ × ABCState θ) :=
  match st.pending with
  | some _ => .error (.protocolError "ask called while a previous ask is outstanding")
  | none =>
      if st.threshold_schedule.length ≤ st.gen then .error .exhaustedError
      else
        let xs := (List.range n).map propose
        .ok (xs, { st with pending := some xs })

/-- Modelled from the spec (section 4.1): `tell(distances)`. Fails with a
ProtocolError when no pending-ask buffer exists. Otherwise a proposal is
accepted iff its distance is strictly below the current generation
threshold; accepted proposals are appended to the growing population, the
generation advances once the population reaches `intermediate_size`, the
pending buffer is cleared, and the call returns the accepted particles of
this batch, or the null result when the batch produced none. -/
def ABCSMC.tell {θ : Type} (st : ABCState θ) (ds : List ℚ) :
    Except ABCError (Option (List θ) × ABCState θ) :=
  match st.pending with
  | none => .error (.protocolError "tell called with no matching ask")
  | some xs =>
      let accepted := ((xs.zip ds).filter fun q => decide (q.2 < currentThreshold st)).map Prod.fst
      let grown := st.population ++ accepted
      let st' :=
        if st.intermediate_size ≤ grown.length then
          { st with pending := none, population := [], gen := st.gen + 1 }
        else
          { st with pending := none, population := grown }
      if accepted.isEmpty then .ok (none, st') else .ok (some accepted, st')

/-- Modelled from the spec (section 6): `name()` of any constructed
sampler. -/
def ABCSMC.name {θ : Type} (_st : ABCState θ) : String :=
  "ABC-SMC"

/-- Modelled from the spec (section 8, property 5) and the driver loop of
the tests: repeatedly ask and tell, feeding back the distances of the
proposals, collecting each non-null tell result, until `intermediate_size`
results have been collected; `fuel` bounds the number of iterations and
`none` reports a run that failed or ran out of fuel. -/
def runLoop {θ : Type} (fuel : Nat) (st : ABCState θ) (propose : Nat → θ)
    (dist : θ → ℚ) (n : Nat) (acc : List (List θ)) : Option (List (List θ)) :=
  match fuel with
  | 0 => none
  | Nat.succ fuel =>
      if st.intermediate_size ≤ acc.length then some acc
      else
        match ABCSMC.ask st propose n with
        | .error _ => none
        | .ok (xs, st1) =>
            match ABCSMC.tell st1 (xs.map dist) with
            | .error _ => none
            | .ok (none, st2) => runLoop fuel st2 propose dist n acc
            | .ok (some s, st2) => runLoop fuel st2 propose dist n (acc ++ [s])

/-! Concrete instances used by the witnesses below. -/

/-- A sampler state with an outstanding (unresolved) pending-ask buffer,
schedule topping out at 6. -/
def stPendingW : ABCState ℚ :=
  { threshold_schedule := [6], intermediate_size := 1, gen := 0,
    population := [], pending := some [(1 : ℚ)/10] }

/-- A freshly constructed sampler state: no pending-ask buffer. -/
def stFreshW : ABCState ℚ :=
  ⟨[], 0, 0, [], none⟩

/-- A concrete valid prior over one-dimensional rational parameters. -/
def priorW : Prior ℚ :=
  ⟨fun _ => (1 : ℚ)/10, fun _ => true⟩

/-- C2: for every sampler state with an unresolved pending-ask buffer and
every n, ask(n) fails with a ProtocolError rather than producing
proposals. -/
theorem ask_with_outstanding_ask_fails {θ : Type} (st : ABCState θ) (buf : List θ)
    (propose : Nat → θ) (n : Nat) (hpend : st.pending = some buf) :
    ABCSMC.ask st propose n =
      Except.error (ABCError.protocolError "ask called while a previous ask is outstanding") := by
  unfold ABCSMC.ask
  rw [hpend]

/-- Witness for C2 at a concrete state whose ask is outstanding. -/
theorem ask_with_outstanding_ask_fails_witness :
    stPendingW.pending = some [(1 : ℚ)/10] ∧
      ABCSMC.ask stPendingW (fun _ => (0 : ℚ)) 1 =
        Except.error (ABCError.protocolError "ask called while a previous ask is outstanding") :=
  ⟨rfl, ask_with_outstanding_ask_fails stPendingW [(1 : ℚ)/10] (fun _ => (0 : ℚ)) 1 rfl⟩

/-- C3: for every sampler state with no pending-ask buffer, tell fails with
a ProtocolError. -/
theorem tell_without_ask_fails {θ : Type} (st : ABCState θ) (ds : List ℚ)
    (hpend : st.pending = none) :
    ABCSMC.tell st ds =
      Except.error (ABCError.protocolError "tell called with no matching ask") := by
  unfold ABCSMC.tell
  rw [hpend]

/-- Witness for C3 at a freshly constructed sampler. -/
theorem tell_without_ask_fails_witness :
    ABCSMC.construct priorW none = Except.ok stFreshW ∧
      stFreshW.pending = none ∧
      ABCSMC.tell stFreshW [(5 : ℚ)/2] =
        Except.error (ABCError.protocolError "tell called with no matching ask") :=
  ⟨rfl, rfl, tell_without_ask_fails stFreshW [(5 : ℚ)/2] rfl⟩

/-- C6: constructing ABCSMC with a transition-kernel argument lacking the
sample and density capabilities fails with a ValueError-class error, so no
sampler state is constructed. -/
theorem construct_invalid_kernel_fails {θ : Type} (prior : Prior θ)
    (k : TransitionKernelArg θ) (h : k.hasCapabilities = false) :
    ABCSMC.construct prior (some k) =
      Except.error
        (ABCError.valueError "Transition kernel must expose sample and density capabilities.") := by
  simp [ABCSMC.construct, h]

/-- Witness for C6: a bare numeric array exposes neither capability and is
rejected at construction. -/
theorem construct_invalid_kernel_fails_witness :
    (bareNumericArray ℚ).hasCapabilities = false ∧
      ABCSMC.construct priorW (some (bareNumericArray ℚ)) =
        Except.error
          (ABCError.valueError "Transition kernel must expose sample and density capabilities.") :=
  ⟨rfl, construct_invalid_kernel_fails priorW (bareNumericArray ℚ) rfl⟩

/-- C8: for every constructed sampler state, regardless of configuration,
name() returns exactly the string "ABC-SMC". -/
theorem name_returns_abc_smc {θ : Type} (st : ABCState θ) :
    ABCSMC.name st = "ABC-SMC" :=
  rfl

/-- Helper: a zip has no entry whose second component beats `t` when no
distance in `ds` does. -/
theorem zip_filter_below_eq_nil {θ : Type} (xs : List θ) (ds : List ℚ) (t : ℚ)
    (h : ∀ d ∈ ds, ¬ d < t) :
    (xs.zip ds).filter (fun q => decide (q.2 < t)) = [] := by
  rw [List.filter_eq_nil_iff]
  intro q hq
  simpa using h q.2 (List.of_mem_zip hq).2

/-- C1: for every pending ask batch in which no distance is strictly below
the current generation threshold, tell returns the null result and does
not raise. -/
theorem tell_no_acceptance_returns_null {θ : Type} (st : ABCState θ)
    (xs : List θ) (ds : List ℚ) (hpend : st.pending = some xs)
    (h : ∀ d ∈ ds, ¬ d < currentThreshold st) :
    (ABCSMC.tell st ds).map Prod.fst = Except.ok none := by
  unfold ABCSMC.tell
  rw [hpend]
  simp [zip_filter_below_eq_nil xs ds (currentThreshold st) h, Except.map]

/-- Witness for C1: a distance of 100 against a schedule topping out at 6
yields the null result without an error. -/
theorem tell_no_acceptance_returns_null_witness :
    stPendingW.pending = some [(1 : ℚ)/10] ∧
      (ABCSMC.tell stPendingW [100]).map Prod.fst = Except.ok none :=
  ⟨rfl, tell_no_acceptance_returns_null stPendingW [(1 : ℚ)/10] [100] rfl (by decide)⟩

/-- C5: set_threshold_schedule fails with a ValueError-class error for
every sequence containing a non-positive entry, and succeeds, with the
schedule observably set, for every sequence of strictly positive
entries. -/
theorem set_threshold_schedule_validates {θ : Type} (st : ABCState θ) (ts : List ℚ) :
    ((∃ t ∈ ts, t ≤ 0) →
        ABCSMC.set_threshold_schedule st ts =
          Except.error (ABCError.valueError "Thresholds must all be positive.")) ∧
      ((∀ t ∈ ts, 0 < t) →
        ABCSMC.set_threshold_schedule st ts =
          Except.ok { st with threshold_schedule := ts }) := by
  constructor
  · rintro ⟨t, ht, hle⟩
    have hany : (ts.any fun t => decide (t ≤ 0)) = true := by
      rw [List.any_eq_true]
      exact ⟨t, ht, by simpa using hle⟩
    simp [ABCSMC.set_threshold_schedule, hany]
  · intro hpos
    have hany : (ts.any fun t => decide (t ≤ 0)) = false := by
      rw [Bool.eq_false_iff]
      intro hcon
      rw [List.any_eq_true] at hcon
      obtain ⟨t, ht, hle⟩ := hcon
      have hle' : t ≤ 0 := by simpa using hle
      exact absurd (hpos t ht) hle'.not_lt
    simp [ABCSMC.set_threshold_schedule, hany]

/-- Witness for C5: the sequence with a negative entry is rejected and the
all-positive sequence is installed. -/
theorem set_threshold_schedule_validates_witness :
    ABCSMC.set_threshold_schedule stFreshW [1, -1] =
        Except.error (ABCError.valueError "Thresholds must all be positive.") ∧
      ABCSMC.set_threshold_schedule stFreshW [6, 4, 2] =
        Except.ok { stFreshW with threshold_schedule := [6, 4, 2] } :=
  ⟨(set_threshold_schedule_validates stFreshW [1, -1]).1 (by decide),
   (set_threshold_schedule_validates stFreshW [6, 4, 2]).2 (by decide)⟩


/-- Helper: ask never changes the configured population size. -/
theorem ask_preserves_size {θ : Type} (st : ABCState θ) (propose : Nat → θ)
    (n : Nat) (xs : List θ) (st1 : ABCState θ)
    (h : ABCSMC.ask st propose n = Except.ok (xs, st1)) :
    st1.intermediate_size = st.intermediate_size := by
  unfold ABCSMC.ask at h
  cases hp : st.pending <;> rw [hp] at h
  · by_cases hc : st.threshold_schedule.length ≤ st.gen
    · rw [if_pos hc] at h
      exact absurd h (by simp)
    · rw [if_neg hc] at h
      rw [Except.ok.injEq, Prod.mk.injEq] at h
      rw [← h.2]
  · exact absurd h (by simp)

/-- Helper: tell never changes the configured population size. -/
theorem tell_preserves_size {θ : Type} (st : ABCState θ) (ds : List ℚ)
    (r : Option (List θ)) (st1 : ABCState θ)
    (h : ABCSMC.tell st ds = Except.ok (r, st1)) :
    st1.intermediate_size = st.intermediate_size := by
  unfold ABCSMC.tell at h
  cases hp : st.pending <;> rw [hp] at h
  · simp at h
  · simp only at h
    split at h <;> split at h <;>
      (rw [Except.ok.injEq, Prod.mk.injEq] at h
       rw [← h.2])

/-- Helper: a completed run of the driver loop, started with no more
results collected than the population size, ends with exactly
`intermediate_size` collected results. -/
theorem runLoop_completes_exact {θ : Type} :
    ∀ (fuel : Nat) (st : ABCState θ) (propose : Nat → θ) (dist : θ → ℚ)
      (n : Nat) (acc res : List (List θ)),
      acc.length ≤ st.intermediate_size →
      runLoop fuel st propose dist n acc = some res →
      res.length = st.intermediate_size := by
  intro fuel
  induction fuel with
  | zero =>
      intro st propose dist n acc res hle h
      simp [runLoop] at h
  | succ fuel ih =>
      intro st propose dist n acc res hle h
      rw [runLoop] at h
      split at h
      case isTrue hstop =>
        simp only [Option.some.injEq] at h
        rw [← h]
        omega
      case isFalse hmore =>
        split at h
        case h_1 => simp at h
        case h_2 xs st1 hask =>
          split at h
          case h_1 => simp at h
          case h_2 st2 htell =>
            have e1 := ask_preserves_size st propose n xs st1 hask
            have e2 := tell_preserves_size st1 (xs.map dist) none st2 htell
            rw [← e1, ← e2] at hle
            rw [← e1, ← e2]
            exact ih st2 propose dist n acc res hle h
          case h_3 s st2 htell =>
            have e1 := ask_preserves_size st propose n xs st1 hask
            have e2 := tell_preserves_size st1 (xs.map dist) (some s) st2 htell
            rw [← e1, ← e2] at hle hmore
            rw [← e1, ← e2]
            refine ih st2 propose dist n (acc ++ [s]) res ?_ h
            rw [List.length_append]
            simp only [List.length_cons, List.length_nil]
            omega

/-- The sampler configuration of the end-to-end loop witness: schedule
[6, 4, 2] and an intermediate size of 2. -/
def stLoopW : ABCState ℚ :=
  ⟨[6, 4, 2], 2, 0, [], none⟩

/-- C4: for every batch size n, repeatedly calling ask(n) and tell and
collecting each non-null tell result until `intermediate_size` results
have been produced yields a result set of exactly `intermediate_size`
elements. -/
theorem loop_collects_exactly_intermediate_size {θ : Type} (fuel n : Nat)
    (st : ABCState θ) (propose : Nat → θ) (dist : θ → ℚ) (res : List (List θ))
    (h : runLoop fuel st propose dist n [] = some res) :
    res.length = st.intermediate_size :=
  runLoop_completes_exact fuel st propose dist n [] res (Nat.zero_le _) h

/-- Witness for C4: two complete runs of the loop, one with n = 1 and one
with n = 2, both collect exactly `intermediate_size` results. -/
theorem loop_collects_exactly_intermediate_size_witness :
    runLoop 3 stLoopW (fun _ => (7 : ℚ)) (fun _ => 0) 1 [] =
        some [[(7 : ℚ)], [(7 : ℚ)]] ∧
      ([[(7 : ℚ)], [(7 : ℚ)]] : List (List ℚ)).length = stLoopW.intermediate_size ∧
      runLoop 3 stLoopW (fun _ => (7 : ℚ)) (fun _ => 0) 2 [] =
        some [[(7 : ℚ), (7 : ℚ)], [(7 : ℚ), (7 : ℚ)]] ∧
      ([[(7 : ℚ), (7 : ℚ)], [(7 : ℚ), (7 : ℚ)]] : List (List ℚ)).length =
        stLoopW.intermediate_size :=
  ⟨by decide,
   loop_collects_exactly_intermediate_size 3 1 stLoopW (fun _ => (7 : ℚ)) (fun _ => 0)
     [[(7 : ℚ)], [(7 : ℚ)]] (by decide),
   by decide,
   loop_collects_exactly_intermediate_size 3 2 stLoopW (fun _ => (7 : ℚ)) (fun _ => 0)
     [[(7 : ℚ), (7 : ℚ)], [(7 : ℚ), (7 : ℚ)]] (by decide)⟩

/-- The uniform prior boundaries of the test setup: the box from 0 to
3/10 in one dimension. -/
def bW : RectangularBoundaries :=
  ⟨[0], [3/10]⟩

/-- C9: over rectangular boundaries the log-prior returns the one fixed
constant, the negative log of the product of the per-coordinate ranges,
whenever the boundaries check accepts the point, returns negative infinity
whenever it rejects it, and is finite exactly when the check passes. The
hypothesis that the product of the ranges is positive is the construction
invariant of rectangular boundaries (upper strictly above lower). -/
theorem uniform_call_constant_iff_in_support (b : RectangularBoundaries)
    (x : List ℚ) (hpos : 0 < rangeProduct b) :
    (b.check x = true →
        UniformLogPrior.call (Boundaries.rectangular b) x =
          PyFloat.negLogOf (rangeProduct b)) ∧
      (b.check x = false →
        UniformLogPrior.call (Boundaries.rectangular b) x = PyFloat.negInf) ∧
      (UniformLogPrior.call (Boundaries.rectangular b) x).isFinite = b.check x := by
  cases hc : b.check x <;>
    simp [UniformLogPrior.call, Boundaries.check, UniformLogPrior.value, hc,
      PyFloat.isFinite, hpos]

/-- Witness for C9 at the boundaries of the test setup and an interior
point: the log-density is the finite constant there. -/
theorem uniform_call_constant_iff_in_support_witness :
    0 < rangeProduct bW ∧
      UniformLogPrior.call (Boundaries.rectangular bW) [(1 : ℚ)/10] =
        PyFloat.negLogOf (rangeProduct bW) ∧
      (UniformLogPrior.call (Boundaries.rectangular bW) [(1 : ℚ)/10]).isFinite =
        bW.check [(1 : ℚ)/10] :=
  ⟨by norm_num [rangeProduct, RectangularBoundaries.range, bW],
   (uniform_call_constant_iff_in_support bW [(1 : ℚ)/10]
      (by norm_num [rangeProduct, RectangularBoundaries.range, bW])).1
     (by norm_num [RectangularBoundaries.check, bW]),
   (uniform_call_constant_iff_in_support bW [(1 : ℚ)/10]
      (by norm_num [rangeProduct, RectangularBoundaries.range, bW])).2.2⟩

/-- C10: the inverse cdf of the uniform prior clamps out-of-range
probabilities to the bounds, while on the open unit interval it returns
the convex combination of the bounds and the cdf inverts it exactly. -/
theorem uniform_icdf_clamps_and_inverts_cdf (lower upper p : ℚ)
    (h : lower < upper) :
    (p ≤ 0 → UniformLogPrior.icdf1 lower upper p = lower) ∧
      (1 ≤ p → UniformLogPrior.icdf1 lower upper p = upper) ∧
      (0 < p → p < 1 →
        UniformLogPrior.icdf1 lower upper p = lower * (1 - p) + upper * p ∧
          UniformLogPrior.cdf1 lower upper (UniformLogPrior.icdf1 lower upper p) = p) := by
  refine ⟨?_, ?_, ?_⟩
  · intro hp
    rw [UniformLogPrior.icdf1, if_neg (by rintro ⟨h1, _⟩; exact absurd hp h1.not_le),
      if_pos hp]
  · intro hp
    rw [UniformLogPrior.icdf1, if_neg (by rintro ⟨_, h2⟩; exact absurd hp h2.not_le),
      if_neg (by intro hle; exact absurd (le_trans hp hle) (by norm_num))]
  · intro hp0 hp1
    have hval : UniformLogPrior.icdf1 lower upper p = lower * (1 - p) + upper * p := by
      rw [UniformLogPrior.icdf1, if_pos ⟨hp0, hp1⟩]
    refine ⟨hval, ?_⟩
    rw [hval, UniformLogPrior.cdf1]
    have hlo : lower < lower * (1 - p) + upper * p := by nlinarith
    have hhi : lower * (1 - p) + upper * p < upper := by nlinarith
    rw [if_pos ⟨hlo, hhi⟩]
    have hne : -lower + upper ≠ 0 := by
      intro hz
      exact absurd (by linarith : lower = upper) h.ne
    field_simp
    ring

/-- Witness for C10 on the unit interval at p = 1/2: the round trip is
exact and the clamps return the bounds. -/
theorem uniform_icdf_clamps_and_inverts_cdf_witness :
    (0 : ℚ) < 1 ∧
      UniformLogPrior.icdf1 0 1 (-1) = 0 ∧
      UniformLogPrior.icdf1 0 1 2 = 1 ∧
      UniformLogPrior.cdf1 0 1 (UniformLogPrior.icdf1 0 1 ((1 : ℚ)/2)) = (1 : ℚ)/2 :=
  ⟨by norm_num,
   (uniform_icdf_clamps_and_inverts_cdf 0 1 (-1) (by norm_num)).1 (by norm_num),
   (uniform_icdf_clamps_and_inverts_cdf 0 1 2 (by norm_num)).2.1 (by norm_num),
   ((uniform_icdf_clamps_and_inverts_cdf 0 1 ((1 : ℚ)/2) (by norm_num)).2.2
      (by norm_num) (by norm_num)).2⟩
